import Mathlib

/-!
Verification of the HTTP JSON-RPC transport (`src/transports/http.rs`).

The transport is shallowly embedded: pure Rust functions become Lean
functions, the asynchronous `poll` state machine becomes a step function
over an explicit `ResponseState` driven by a script of events (the HTTP
response resolution followed by the body chunks), and fallible code
returns `Except`.  External collaborators (the serde deserializer, the
`url` parser, the `helpers` module of the crate) are either parameters of
the embedded functions or modelled from the spec, as marked in the doc
comments.
-/

namespace Web3Http

/-- Modelled from the spec (section 7): the error type `crate::Error` of the
repository is not under `src/`; the spec lists a transport error carrying a
message, an invalid-response (decode) error carrying a message, and the
conversion of a failed JSON-RPC output into a failure carrying the
error code and message. -/
inductive Error where
  | Transport (msg : String)
  | InvalidResponse (msg : String)
  | Rpc (code : Int) (message : String)
deriving DecidableEq, Repr

/-- Modelled from the spec (section 3): an Output is a tagged union of
success (value) or failure (code, message), keyed nominally by a request
id.  The value type is a parameter, since `rpc::Value` is external. -/
inductive Output (V : Type) where
  | success (id : Nat) (result : V)
  | failure (id : Nat) (code : Int) (message : String)
deriving DecidableEq, Repr

/-- Replace the nominal request id of an output, keeping its payload. -/
def Output.withId {V : Type} : Output V → Nat → Output V
  | .success _ r, i => .success i r
  | .failure _ c m, i => .failure i c m

/-- The response envelope `rpc::Response`: `Single(Output)` or
`Batch(Vec<Output>)` (external `jsonrpc` type, shape per spec section 3). -/
inductive RpcResponse (V : Type) where
  | Single (output : Output V)
  | Batch (outputs : List (Output V))
deriving DecidableEq, Repr

/-- Modelled from the spec (section 6): `helpers::to_result_from_output`
converts an Output into a success value or a failure carrying the JSON-RPC
error code and message; the nominal id is not consulted. -/
def to_result_from_output {V : Type} : Output V → Except Error V
  | .success _ r => .ok r
  | .failure _ code msg => .error (.Rpc code msg)

/-- Embeds `single_response` from `http.rs`.  The serde deserializer
`serde_json::from_slice` is external, so it is a parameter `fromSlice`;
its error already carries the debug-formatted parse diagnostic that the
source wraps into `Error::InvalidResponse`. -/
def single_response {V : Type} (fromSlice : List Nat → Except String (RpcResponse V))
    (response : List Nat) : Except Error V :=
  match fromSlice response with
  | .error e => .error (.InvalidResponse e)
  | .ok (.Single output) => to_result_from_output output
  | .ok (.Batch _) => .error (.InvalidResponse "Expected single, got batch.")

/-- Embeds `batch_response` from `http.rs`. -/
def batch_response {V : Type} (fromSlice : List Nat → Except String (RpcResponse V))
    (response : List Nat) : Except Error (List (Except Error V)) :=
  match fromSlice response with
  | .error e => .error (.InvalidResponse e)
  | .ok (.Batch outputs) => .ok (outputs.map to_result_from_output)
  | .ok (.Single _) => .error (.InvalidResponse "Expected batch, got single.")

/-! ## The response state machine -/

/-- The states of `enum ResponseState`: `Waiting(ResponseFuture)` and
`Reading(Vec<u8>, Body)`.  The pending future and the body stream are
supplied as events to the step functions, so the state keeps only the
byte accumulator. -/
inductive ResponseState where
  | Waiting
  | Reading (content : List Nat)
deriving DecidableEq, Repr

/-- Embeds `hyper::StatusCode::is_success`: status class 2xx. -/
def is_success (status : Nat) : Bool := 200 ≤ status && status < 300

/-- The transport error message produced for a non-success status.  The
source formats the hyper status with `Display`, which prints the numeric
code; modelled as the decimal numeral. -/
def statusErrorMessage (status : Nat) : String :=
  "Unexpected response status code: " ++ toString status

/-- One transition of `poll` from the `Waiting` arm, given the resolution
of the HTTP response future: an I/O error (already debug-formatted, as by
`From<hyper::Error> for Error`) or the response status.  Returns either
the next state or the final result of the future. -/
def stepWaiting (V : Type) (result : Except String Nat) :
    ResponseState ⊕ Except Error V :=
  match result with
  | .error e => .inr (.error (.Transport e))
  | .ok status =>
    if is_success status then .inl (.Reading [])
    else .inr (.error (.Transport (statusErrorMessage status)))

/-- One transition of `poll` from the `Reading` arm, given the next item
of the body stream: `some (ok chunk)` appends the chunk to the
accumulator, `some (error e)` fails with a transport error, `none`
(stream end) hands the accumulator to the extraction function. -/
def stepReading {V : Type} (extract : List Nat → Except Error V)
    (content : List Nat) (item : Option (Except String (List Nat))) :
    ResponseState ⊕ Except Error V :=
  match item with
  | some (.ok chunk) => .inl (.Reading (content ++ chunk))
  | some (.error e) => .inr (.error (.Transport e))
  | none => .inr (extract content)

/-- The `Reading` loop of `poll`, run to completion over the whole body
stream (a finite script of chunk results followed by stream end). -/
def readBody {V : Type} (extract : List Nat → Except Error V)
    (content : List Nat) : List (Except String (List Nat)) → Except Error V
  | [] => extract content
  | .ok chunk :: rest => readBody extract (content ++ chunk) rest
  | .error e :: _ => .error (.Transport e)

/-- The whole `poll` loop of `impl Future for Response`, run to
completion: the resolution of the HTTP call (error or status) followed by
the body chunk script.  Pending polls leave the state unchanged and are
not modelled. -/
def runResponse {V : Type} (extract : List Nat → Except Error V)
    (response : Except String Nat)
    (chunks : List (Except String (List Nat))) : Except Error V :=
  match response with
  | .error e => .error (.Transport e)
  | .ok status =>
    if is_success status then readBody extract [] chunks
    else .error (.Transport (statusErrorMessage status))

/-! ## Request construction -/

/-- Modelled UTF-8 encoding of one character (the byte encoding used by
Rust strings; `String::len` counts these bytes). -/
def utf8BytesOfChar (c : Char) : List Nat :=
  let n := c.toNat
  if n < 128 then [n]
  else if n < 2048 then [192 + n / 64, 128 + n % 64]
  else if n < 65536 then [224 + n / 4096, 128 + n / 64 % 64, 128 + n % 64]
  else [240 + n / 262144, 128 + n / 4096 % 64, 128 + n / 64 % 64, 128 + n % 64]

/-- The UTF-8 bytes of a string. -/
def utf8Bytes (s : String) : List Nat := (s.data.map utf8BytesOfChar).flatten

/-- Rust `String::len`: the UTF-8 byte length. -/
def rustStringLen (s : String) : Nat := (utf8Bytes s).length

/-- The constant `MAX_SINGLE_CHUNK` from `http.rs`: the maximum body
length sent with an explicit `Content-Length` header. -/
def MAX_SINGLE_CHUNK : Nat := 256

/-- The transport handle `Http`, without the hyper client; the atomic id
counter is modelled as explicit state elsewhere. -/
structure Http where
  url : String
  basic_auth : Option String
deriving DecidableEq, Repr

/-- An outgoing HTTP request as assembled by `send_request`: method, URI,
headers in insertion order, body. -/
structure HttpRequest where
  method : String
  uri : String
  headers : List (String × String)
  body : String
deriving DecidableEq, Repr

/-- Embeds the request-assembly part of `Http::send_request`: POST to the
configured URL, `Content-Type` and `User-Agent` always, `Content-Length`
exactly when the serialized body is shorter than `MAX_SINGLE_CHUNK`
bytes, and the precomputed basic-auth header when present.  The already
serialized JSON body is the parameter, since `helpers::to_string` (serde
serialization) is external. -/
def send_request (self : Http) (request : String) : HttpRequest :=
  let len := rustStringLen request
  let headers := [("content-type", "application/json"), ("user-agent", "web3.rs")]
  let headers :=
    if len < MAX_SINGLE_CHUNK then headers ++ [("content-length", toString len)]
    else headers
  let headers :=
    match self.basic_auth with
    | some auth => headers ++ [("authorization", auth)]
    | none => headers
  { method := "POST", uri := self.url, headers := headers, body := request }

/-! ## Basic auth resolution -/

/-- The base64 alphabet (RFC 4648), as used by `base64::encode`. -/
def base64Alphabet : List Char :=
  "ABCDEFGHIJKLMNOPQRSTUVWXYZabcdefghijklmnopqrstuvwxyz0123456789+/".data

/-- The base64 digit for a 6-bit value. -/
def base64Digit (n : Nat) : Char := base64Alphabet.getD n 'A'

/-- Standard base64 of a byte list, three bytes to four digits, padded
with `=`. -/
def base64Groups : List Nat → List Char
  | [] => []
  | [a] => [base64Digit (a / 4), base64Digit (a % 4 * 16), '=', '=']
  | [a, b] => [base64Digit (a / 4), base64Digit (a % 4 * 16 + b / 16),
      base64Digit (b % 16 * 4), '=']
  | a :: b :: c :: rest =>
      base64Digit (a / 4) :: base64Digit (a % 4 * 16 + b / 16)
        :: base64Digit (b % 16 * 4 + c / 64) :: base64Digit (c % 64)
        :: base64Groups rest

/-- Base64 of the UTF-8 bytes of a string, as `base64::encode` on a Rust
string. -/
def base64encode (s : String) : String := String.mk (base64Groups (utf8Bytes s))

/-- Embeds the `basic_auth` block of `Http::new`: given the username and
optional password components extracted from the parsed URL (the `url`
crate parser is external), join them with a colon, produce no header when
the joined string is just the colon, otherwise the base64 basic-auth
header value. -/
def resolveBasicAuth (username : String) (password : Option String) : Option String :=
  let auth := username ++ ":" ++ password.getD ""
  if auth = ":" then none
  else some ("Basic " ++ base64encode auth)

/-! ## Identifiers and batch framing -/

/-- Modelled from the spec (section 3): a Call is one RPC invocation
request built by the external `helpers::build_request` from an id, a
method name and an ordered parameter list; opaque to this core. -/
structure Call (V : Type) where
  id : Nat
  method : String
  params : List V
deriving DecidableEq, Repr

/-- The modulus of `AtomicUsize` on a 64-bit target: `fetch_add` wraps
modulo this value. -/
def USIZE : Nat := 2 ^ 64

/-- Embeds `self.id.fetch_add(1, AcqRel)`: returns the previous counter
value and the incremented (wrapping) counter. -/
def next_id (counter : Nat) : Nat × Nat := (counter, (counter + 1) % USIZE)

/-- Modelled from the spec: `helpers::build_request` builds a Call from
the id, method and parameters. -/
def build_request (V : Type) (id : Nat) (method : String) (params : List V) : Call V :=
  { id := id, method := method, params := params }

/-- Embeds `Transport::prepare` for `Http`: allocate an id from the
shared counter (given and returned as explicit state) and build the
Call. -/
def prepare (V : Type) (counter : Nat) (method : String) (params : List V) :
    (Nat × Call V) × Nat :=
  let p := next_id counter
  ((p.1, build_request V p.1 method params), p.2)

/-- The counter of a fresh transport lineage after `n` prepares; `Http::new`
initializes the shared atomic counter to 1. -/
def counterAfter : Nat → Nat
  | 0 => 1
  | n + 1 => (next_id (counterAfter n)).2

/-- Embeds the envelope construction of `BatchTransport::send_batch` for
`Http`: the identifier is the first id of the collection (0 when empty)
and the calls are collected in order, dropping their ids.  The Call type
is opaque here, so any type stands for it. -/
def send_batch_envelope (α : Type) (requests : List (Nat × α)) : Nat × List α :=
  match requests with
  | [] => (0, [])
  | (id, first) :: rest => (id, first :: rest.map Prod.snd)

/-- A concrete stand-in for the serde deserializer, used to instantiate
the parameterized extractors on concrete byte inputs: the bytes of an
empty array parse as an empty batch, one fixed array as a batch of three
outputs, one fixed object as a single output, and anything else is a
parse error carrying its diagnostic. -/
def demoParse : List Nat → Except String (RpcResponse Nat)
  | [91, 93] => .ok (.Batch [])
  | [91, 49, 93] => .ok (.Batch [.success 1 7, .failure 2 3 "err", .success 3 9])
  | [123, 125] => .ok (.Single (.success 1 7))
  | _ => .error "EOF while parsing a value at line 1 column 0"

/-! ## Sanity checks against the unit tests of `http.rs` -/

theorem base64_user_password : base64encode "user:password" = "dXNlcjpwYXNzd29yZA==" := by
  decide

theorem base64_user_only : base64encode "username:" = "dXNlcm5hbWU6" := by decide

theorem base64_password_only : base64encode ":password" = "OnBhc3N3b3Jk" := by decide

/-! ## Helper lemmas -/

/-- A string of length zero is the empty string. -/
theorem length_eq_zero_iff (s : String) : s.length = 0 ↔ s = "" := by
  constructor
  · intro h
    cases s with
    | mk data =>
      cases data with
      | nil => rfl
      | cons c t => simp [String.length] at h
  · rintro rfl
    rfl

/-- Joining a username and a password with a colon yields just the colon
exactly when both are empty. -/
theorem append_colon_eq (u p : String) : u ++ ":" ++ p = ":" ↔ u = "" ∧ p = "" := by
  constructor
  · intro h
    have hl := congrArg String.length h
    rw [String.length_append, String.length_append] at hl
    have hc : (":" : String).length = 1 := rfl
    rw [hc] at hl
    exact ⟨(length_eq_zero_iff u).mp (by omega), (length_eq_zero_iff p).mp (by omega)⟩
  · rintro ⟨rfl, rfl⟩
    rfl

/-- Reading a script of successful chunks appends them to the accumulator
in order and hands the concatenation to the extractor. -/
theorem readBody_ok_chunks (V : Type) (extract : List Nat → Except Error V)
    (content : List Nat) (chunks : List (List Nat)) :
    readBody extract content (chunks.map .ok) = extract (content ++ chunks.flatten) := by
  induction chunks generalizing content with
  | nil => simp [readBody]
  | cons c rest ih => simp [readBody, ih]

/-- A read error anywhere in the body script resolves the future with a
transport error, whatever the extractor. -/
theorem readBody_read_error (V : Type) (extract : List Nat → Except Error V)
    (content : List Nat) (pre : List (List Nat)) (e : String)
    (rest : List (Except String (List Nat))) :
    readBody extract content (pre.map .ok ++ .error e :: rest) = .error (.Transport e) := by
  induction pre generalizing content with
  | nil => simp [readBody]
  | cons c t ih => simp [readBody, ih]

/-- Closed form of the shared id counter after `n` allocations. -/
theorem counterAfter_eq (k : Nat) : counterAfter k = (1 + k) % USIZE := by
  induction k with
  | zero =>
    show 1 = (1 + 0) % USIZE
    norm_num [USIZE]
  | succ k ih =>
    show (counterAfter k + 1) % USIZE = (1 + (k + 1)) % USIZE
    rw [ih, Nat.mod_add_mod, Nat.add_assoc]

/-! ## Claims -/

/-- Claim C5: for every ordered collection of (id, Call) pairs passed to
send_batch, the identifier used for the whole batch is the id of the
first element, or 0 if the collection is empty; all Calls are placed into
the Batch envelope preserving input order, and an empty collection yields
identifier 0 and an empty call list rather than an error. -/
theorem send_batch_first_id_and_order (α : Type) (requests : List (Nat × α)) :
    send_batch_envelope α requests
      = ((requests.head?.map Prod.fst).getD 0, requests.map Prod.snd) := by
  cases requests with
  | nil => rfl
  | cons h t => cases h; rfl

/-- Claim C7: on valid JSON of the wrong envelope shape, single_response
fails with an InvalidResponse error stating that a single was expected
but a batch arrived, and batch_response fails with an InvalidResponse
error stating that a batch was expected but a single arrived. -/
theorem envelope_shape_mismatch (V : Type)
    (fromSlice : List Nat → Except String (RpcResponse V))
    (b1 b2 : List Nat) (outputs : List (Output V)) (o : Output V)
    (h1 : fromSlice b1 = .ok (.Batch outputs))
    (h2 : fromSlice b2 = .ok (.Single o)) :
    single_response fromSlice b1 = .error (.InvalidResponse "Expected single, got batch.")
    ∧ batch_response fromSlice b2 = .error (.InvalidResponse "Expected batch, got single.") := by
  constructor
  · simp [single_response, h1]
  · simp [batch_response, h2]

/-- Witness for C7 on concrete byte inputs. -/
theorem envelope_shape_mismatch_witness :
    demoParse [91, 93] = .ok (.Batch [])
    ∧ demoParse [123, 125] = .ok (.Single (.success 1 7))
    ∧ single_response demoParse [91, 93]
        = .error (.InvalidResponse "Expected single, got batch.")
    ∧ batch_response demoParse [123, 125]
        = .error (.InvalidResponse "Expected batch, got single.") :=
  ⟨rfl, rfl,
    (envelope_shape_mismatch Nat demoParse [91, 93] [123, 125] [] (.success 1 7) rfl rfl).1,
    (envelope_shape_mismatch Nat demoParse [91, 93] [123, 125] [] (.success 1 7) rfl rfl).2⟩

/-- Claim C8: on bytes that are not valid JSON, both single_response and
batch_response fail with an InvalidResponse error carrying the underlying
parse diagnostic, and this holds through the whole response pipeline even
when the HTTP status was a success. -/
theorem malformed_json_invalid_response (V : Type)
    (fromSlice : List Nat → Except String (RpcResponse V))
    (bytes : List Nat) (diag : String)
    (h : fromSlice bytes = .error diag) :
    single_response fromSlice bytes = .error (.InvalidResponse diag)
    ∧ batch_response fromSlice bytes = .error (.InvalidResponse diag)
    ∧ ∀ status : Nat, 200 ≤ status → status < 300 →
        runResponse (single_response fromSlice) (.ok status) [.ok bytes]
          = .error (.InvalidResponse diag) := by
  refine ⟨by simp [single_response, h], by simp [batch_response, h], ?_⟩
  intro status h1 h2
  have hs : is_success status = true := by simp [is_success]; omega
  simp [runResponse, hs, readBody, single_response, h]

/-- Witness for C8 on a concrete non-JSON byte input. -/
theorem malformed_json_invalid_response_witness :
    demoParse [0] = .error "EOF while parsing a value at line 1 column 0"
    ∧ single_response demoParse [0]
        = .error (.InvalidResponse "EOF while parsing a value at line 1 column 0")
    ∧ runResponse (single_response demoParse) (.ok 200) [.ok [0]]
        = .error (.InvalidResponse "EOF while parsing a value at line 1 column 0") :=
  ⟨rfl,
    (malformed_json_invalid_response Nat demoParse [0]
      "EOF while parsing a value at line 1 column 0" rfl).1,
    (malformed_json_invalid_response Nat demoParse [0]
      "EOF while parsing a value at line 1 column 0" rfl).2.2 200 (by decide) (by decide)⟩

/-- Claim C6: on bytes parsing as a JSON array of outputs, batch_response
converts each element into a success-or-failure result preserving the
array order; the results are positional and the nominal ids of the
outputs do not influence the conversion. -/
theorem batch_response_positional (V : Type)
    (fromSlice : List Nat → Except String (RpcResponse V))
    (bytes : List Nat) (outputs : List (Output V))
    (h : fromSlice bytes = .ok (.Batch outputs)) :
    batch_response fromSlice bytes = .ok (outputs.map to_result_from_output)
    ∧ (∀ i : Nat,
        (outputs.map to_result_from_output)[i]? = outputs[i]?.map to_result_from_output)
    ∧ (∀ (o : Output V) (j : Nat), to_result_from_output (o.withId j)
        = to_result_from_output o) := by
  refine ⟨by simp [batch_response, h], ?_, ?_⟩
  · intro i
    simp [List.getElem?_map]
  · intro o j
    cases o <;> rfl

/-- Witness for C6 on a concrete three-output batch. -/
theorem batch_response_positional_witness :
    demoParse [91, 49, 93]
      = .ok (.Batch [.success 1 7, .failure 2 3 "err", .success 3 9])
    ∧ batch_response demoParse [91, 49, 93]
        = .ok [.ok 7, .error (.Rpc 3 "err"), .ok 9] := by
  refine ⟨rfl, ?_⟩
  have h := (batch_response_positional Nat demoParse [91, 49, 93]
    [.success 1 7, .failure 2 3 "err", .success 3 9] rfl).1
  simpa [to_result_from_output] using h

/-- Claim C4: the resolved basic-auth header is the word Basic followed
by the base64 of the username, a colon and the password (a missing
password counting as empty), and no header is produced exactly when both
the username and the password are empty. -/
theorem basic_auth_resolution (user : String) (password : Option String) :
    (¬(user = "" ∧ password.getD "" = "") →
      resolveBasicAuth user password
        = some ("Basic " ++ base64encode (user ++ ":" ++ password.getD "")))
    ∧ (resolveBasicAuth user password = none ↔ user = "" ∧ password.getD "" = "") := by
  constructor
  · intro h
    have hne : ¬(user ++ ":" ++ password.getD "" = ":") := fun hc =>
      h (append_colon_eq user (password.getD "") |>.mp hc)
    simp [resolveBasicAuth, hne]
  · by_cases hc : user ++ ":" ++ password.getD "" = ":"
    · simp [resolveBasicAuth, hc, append_colon_eq user (password.getD "") |>.mp hc]
    · simp only [resolveBasicAuth, if_neg hc]
      simp [← append_colon_eq user (password.getD ""), hc]

/-- Witness for C4 at the credentials of the unit tests of the source. -/
theorem basic_auth_resolution_witness :
    ¬(("user" : String) = "" ∧ (some "password").getD "" = "")
    ∧ resolveBasicAuth "user" (some "password")
        = some ("Basic " ++ base64encode ("user" ++ ":" ++ (some "password").getD ""))
    ∧ resolveBasicAuth "user" (some "password") = some "Basic dXNlcjpwYXNzd29yZA=="
    ∧ resolveBasicAuth "" none = none :=
  ⟨by decide, (basic_auth_resolution "user" (some "password")).1 (by decide),
    by decide, by decide⟩

/-- Claim C3: every request is a POST carrying Content-Type
application/json and the fixed User-Agent; the Content-Length header
equals the exact byte length of the serialized body when that length is
strictly below 256 and is omitted otherwise. -/
theorem send_request_header_policy (self : Http) (request : String) :
    (send_request self request).method = "POST"
    ∧ (send_request self request).headers.lookup "content-type" = some "application/json"
    ∧ (send_request self request).headers.lookup "user-agent" = some "web3.rs"
    ∧ (rustStringLen request < 256 →
        (send_request self request).headers.lookup "content-length"
          = some (toString (rustStringLen request)))
    ∧ (256 ≤ rustStringLen request →
        (send_request self request).headers.lookup "content-length" = none) := by
  obtain ⟨url, auth⟩ := self
  by_cases h : rustStringLen request < 256
  · refine ⟨rfl, ?_, ?_, fun _ => ?_, fun hc => absurd hc (by omega)⟩
    · cases auth <;> simp [send_request, MAX_SINGLE_CHUNK, h, List.lookup]
    · cases auth <;> simp [send_request, MAX_SINGLE_CHUNK, h, List.lookup]
    · cases auth <;> simp [send_request, MAX_SINGLE_CHUNK, h, List.lookup]
  · refine ⟨rfl, ?_, ?_, fun hc => absurd hc h, fun _ => ?_⟩
    · cases auth <;> simp [send_request, MAX_SINGLE_CHUNK, h, List.lookup]
    · cases auth <;> simp [send_request, MAX_SINGLE_CHUNK, h, List.lookup]
    · cases auth <;> simp [send_request, MAX_SINGLE_CHUNK, h, List.lookup]

set_option maxRecDepth 4000 in
/-- Witness for C3: a short body gets an exact Content-Length, a long one
gets none. -/
theorem send_request_header_policy_witness :
    (rustStringLen "abc" < 256
      ∧ (send_request (Http.mk "http://x" none) "abc").headers.lookup "content-length"
          = some (toString (rustStringLen "abc")))
    ∧ (256 ≤ rustStringLen (String.mk (List.replicate 300 'a'))
      ∧ (send_request (Http.mk "http://x" none)
            (String.mk (List.replicate 300 'a'))).headers.lookup "content-length"
          = none) :=
  ⟨⟨by decide, (send_request_header_policy (Http.mk "http://x" none) "abc").2.2.2.1 (by decide)⟩,
   ⟨by decide, (send_request_header_policy (Http.mk "http://x" none)
      (String.mk (List.replicate 300 'a'))).2.2.2.2 (by decide)⟩⟩

/-- Claim C2: a non-2xx response resolves the future immediately with a
Transport error whose message carries the numeric status code; the
machine never transitions to Reading, the extractor is never consulted
(the outcome is the same fixed error for every extractor), and the error
is a Transport error, never an InvalidResponse error. -/
theorem non_success_status_transport_error (V : Type)
    (extract : List Nat → Except Error V) (status : Nat)
    (chunks : List (Except String (List Nat)))
    (h : ¬(200 ≤ status ∧ status < 300)) :
    stepWaiting V (.ok status)
      = .inr (.error (.Transport (statusErrorMessage status)))
    ∧ runResponse extract (.ok status) chunks
      = .error (.Transport (statusErrorMessage status))
    ∧ (∃ pre post, statusErrorMessage status = pre ++ toString status ++ post)
    ∧ (∀ msg, Error.Transport (statusErrorMessage status) ≠ Error.InvalidResponse msg) := by
  have hs : is_success status = false := by
    simp [is_success]
    omega
  refine ⟨?_, ?_, ⟨"Unexpected response status code: ", "", ?_⟩, ?_⟩
  · simp [stepWaiting, hs]
  · simp [runResponse, hs]
  · simp [statusErrorMessage]
  · intro msg hc
    exact Error.noConfusion hc

/-- Witness for C2 at status 500. -/
theorem non_success_status_transport_error_witness :
    ¬(200 ≤ 500 ∧ 500 < 300)
    ∧ runResponse (V := Nat) (fun bytes => .ok bytes.length) (.ok 500) []
        = .error (.Transport (statusErrorMessage 500))
    ∧ statusErrorMessage 500 = "Unexpected response status code: 500" :=
  ⟨by decide,
    (non_success_status_transport_error Nat (fun bytes => .ok bytes.length)
      500 [] (by decide)).2.1,
    by decide⟩

/-- Claim C1: after a success status, each body chunk is appended to the
accumulator in arrival order, stream end hands the concatenation of all
chunks to the extraction function and its result is the final output, and
a mid-stream read error resolves the future with a Transport error
without consulting the extractor. -/
theorem response_body_accumulation (V : Type)
    (extract : List Nat → Except Error V) (status : Nat)
    (h : 200 ≤ status ∧ status < 300)
    (chunks : List (List Nat)) (pre : List (List Nat)) (e : String)
    (rest : List (Except String (List Nat))) :
    runResponse extract (.ok status) (chunks.map .ok) = extract chunks.flatten
    ∧ runResponse extract (.ok status) (pre.map .ok ++ .error e :: rest)
        = .error (.Transport e)
    ∧ stepWaiting V (.ok status) = .inl (.Reading [])
    ∧ (∀ content chunk, stepReading extract content (some (.ok chunk))
        = .inl (.Reading (content ++ chunk)))
    ∧ (∀ content, stepReading extract content none = .inr (extract content)) := by
  have hs : is_success status = true := by
    simp [is_success]
    omega
  refine ⟨?_, ?_, ?_, fun content chunk => rfl, fun content => rfl⟩
  · simp [runResponse, hs, readBody_ok_chunks]
  · simp [runResponse, hs, readBody_read_error]
  · simp [stepWaiting, hs]

/-- Witness for C1: two chunks concatenate in order before extraction,
and a read error after one good chunk is a transport error. -/
theorem response_body_accumulation_witness :
    (200 ≤ 200 ∧ 200 < 300)
    ∧ runResponse (V := Nat) (fun bytes => .ok bytes.length) (.ok 200)
        ([[1, 2], [3]].map .ok) = .ok 3
    ∧ runResponse (V := Nat) (fun bytes => .ok bytes.length) (.ok 200)
        ([[1, 2]].map .ok ++ .error "connection reset" :: [])
        = .error (.Transport "connection reset") := by
  refine ⟨by decide, ?_, ?_⟩
  · have h := (response_body_accumulation Nat (fun bytes => .ok bytes.length)
      200 (by decide) [[1, 2], [3]] [] "" []).1
    simpa using h
  · exact (response_body_accumulation Nat (fun bytes => .ok bytes.length)
      200 (by decide) [] [[1, 2]] "connection reset" []).2.1

/-- Claim C10: a success response whose body ends with no chunk hands the
empty byte sequence to the extractor, so the single and batch pipelines
resolve with the InvalidResponse error that the deserializer reports on
empty input, rather than hanging. -/
theorem empty_body_extracts_empty (V : Type)
    (fromSlice : List Nat → Except String (RpcResponse V))
    (diag : String) (h : fromSlice [] = .error diag)
    (status : Nat) (hs : 200 ≤ status ∧ status < 300) :
    runResponse (single_response fromSlice) (.ok status) []
      = .error (.InvalidResponse diag)
    ∧ runResponse (batch_response fromSlice) (.ok status) []
      = .error (.InvalidResponse diag)
    ∧ (∀ (W : Type) (extract : List Nat → Except Error W),
        runResponse extract (.ok status) [] = extract []) := by
  have hb : is_success status = true := by
    simp [is_success]
    omega
  refine ⟨?_, ?_, fun W extract => ?_⟩
  · simp [runResponse, hb, readBody, single_response, h]
  · simp [runResponse, hb, readBody, batch_response, h]
  · simp [runResponse, hb, readBody]

/-- Witness for C10: the concrete deserializer rejects the empty input
and both pipelines resolve with that diagnostic. -/
theorem empty_body_extracts_empty_witness :
    demoParse [] = .error "EOF while parsing a value at line 1 column 0"
    ∧ (200 ≤ 200 ∧ 200 < 300)
    ∧ runResponse (single_response demoParse) (.ok 200) []
        = .error (.InvalidResponse "EOF while parsing a value at line 1 column 0")
    ∧ runResponse (batch_response demoParse) (.ok 200) []
        = .error (.InvalidResponse "EOF while parsing a value at line 1 column 0") :=
  ⟨rfl, by decide,
    (empty_body_extracts_empty Nat demoParse
      "EOF while parsing a value at line 1 column 0" rfl 200 (by decide)).1,
    (empty_body_extracts_empty Nat demoParse
      "EOF while parsing a value at line 1 column 0" rfl 200 (by decide)).2.1⟩

/-- Claim C9: prepare returns the previous value of the shared counter
and increments it (wrapping modulo the machine word); the counter of a
fresh lineage starts at 1, so the n-th prepare returns id n while no wrap
occurred; successive ids strictly increase below the wrap point, and at
the wrap point the counter continues from 0 instead of resetting. -/
theorem prepare_id_allocation (V : Type) (counter : Nat) (method : String)
    (params : List V) (n : Nat) (h1 : 1 ≤ n) (h2 : n < USIZE) :
    (prepare V counter method params).1.1 = counter
    ∧ (prepare V counter method params).2 = (counter + 1) % USIZE
    ∧ counterAfter 0 = 1
    ∧ counterAfter (n - 1) = n
    ∧ (n + 1 < USIZE → counterAfter (n - 1) < counterAfter n)
    ∧ counterAfter (USIZE - 1) = 0 := by
  have hU : USIZE = 18446744073709551616 := by norm_num [USIZE]
  refine ⟨rfl, rfl, rfl, ?_, ?_, ?_⟩
  · rw [counterAfter_eq, hU]
    rw [hU] at h2
    omega
  · intro hlt
    rw [counterAfter_eq, counterAfter_eq, hU]
    rw [hU] at h2 hlt
    omega
  · rw [counterAfter_eq, hU]

/-- Witness for C9 at the third allocation of a fresh lineage. -/
theorem prepare_id_allocation_witness :
    (1 ≤ 3 ∧ 3 < USIZE)
    ∧ (prepare Nat 1 "eth_getAccounts" []).1.1 = 1
    ∧ counterAfter 0 = 1
    ∧ counterAfter 2 = 3 :=
  ⟨⟨by decide, by norm_num [USIZE]⟩,
    (prepare_id_allocation Nat 1 "eth_getAccounts" [] 3 (by decide)
      (by norm_num [USIZE])).1,
    (prepare_id_allocation Nat 1 "eth_getAccounts" [] 3 (by decide)
      (by norm_num [USIZE])).2.2.1,
    (prepare_id_allocation Nat 1 "eth_getAccounts" [] 3 (by decide)
      (by norm_num [USIZE])).2.2.2.1⟩

end Web3Http
